import Mathlib

/-!
# Verification of `infer_ext/vendor/camb/camb_ops.py`

A shallow embedding of the camb vendor-operator adaptation layer.

Modelling conventions:
* A torch tensor is a reference `TensorRef` = (storage id, shape) into a heap
  `Heap` mapping storage ids to flat data buffers (`List Int`; the numeric
  values of tensor elements are abstract integers — the kernels' floating
  point arithmetic is out of scope, per spec §1 Non-goals).  A `.view` /
  `.reshape` produces a new reference sharing the same storage id; a fresh
  allocation (`torch.empty_like`, kernel-allocated outputs, indexing results)
  appends a new storage.
* Python scalar floats that the wrapper merely forwards (epsilon,
  attn_qk_scale, alibi slopes) are modelled as rationals; the one float the
  wrapper *computes*, `1. / math.sqrt(dim)`, is kept symbolic (`ScaleVal`)
  together with a real-number semantics `ScaleVal.toReal`.
* Python exceptions are an `Except PyError` result: `assert cond, msg`
  becomes `pyAssert`, attribute access on `None` an `attributeError`,
  impossible reshapes a `runtimeError`, tensor indexing out of range an
  `indexError`, subscripting `None` a `typeError`.
* `.contiguous()` is the identity: model tensors are always contiguous
  (the call only matters for strided torch tensors, which the model does
  not represent); consequently `.view` and `.reshape` coincide.
* The opaque `bt_ops` kernels (the `bangtransformer` binary is not part of
  this repository's sources) are modelled from the spec; each such model
  carries a doc comment starting `Modelled from the spec:`.
-/

/-- A Python exception, as far as the wrapper layer can raise one. -/
inductive PyError where
  | assertionError (msg : String)
  | attributeError (msg : String)
  | runtimeError (msg : String)
  | indexError (msg : String)
  | typeError (msg : String)
  deriving DecidableEq, Repr

/-- The value of a tensor: its shape and its flat (row-major) data. -/
structure TensorVal where
  shape : List Nat
  data : List Int
  deriving DecidableEq, Repr

/-- A heap of storages; a tensor object references one by its index. -/
abbrev Heap := List (List Int)

/-- A torch tensor object: a storage reference plus a shape (views share
the storage id). -/
structure TensorRef where
  sid : Nat
  shape : List Nat
  deriving DecidableEq, Repr

namespace TensorRef

/-- `t.ndim` -/
def ndim (t : TensorRef) : Nat := t.shape.length

/-- `t.numel()` -/
def numel (t : TensorRef) : Nat := t.shape.prod

/-- The value a reference denotes in a heap. -/
def val (t : TensorRef) (h : Heap) : TensorVal := ⟨t.shape, h.getD t.sid []⟩

/-- A reference is well formed in a heap when its storage exists and has
exactly `numel` elements. -/
def wf (t : TensorRef) (h : Heap) : Prop :=
  t.sid < h.length ∧ (h.getD t.sid []).length = t.numel

instance (t : TensorRef) (h : Heap) : Decidable (t.wf h) := by
  unfold wf; infer_instance

end TensorRef

/-- Allocate a fresh storage holding `data`; the new reference carries
`shape`. -/
def allocT (h : Heap) (shape : List Nat) (data : List Int) : TensorRef × Heap :=
  (⟨h.length, shape⟩, h ++ [data])

/-- `assert cond, msg` -/
def pyAssert (cond : Prop) [Decidable cond] (msg : String) : Except PyError Unit :=
  if cond then .ok () else .error (.assertionError msg)

/-- `t.view(-1, d)` / `t.reshape(-1, d)`: flatten to two dimensions with the
last dimension `d`.  Succeeds exactly when `d` divides the element count
(`numel % d = 0`; for `d = 0` this demands `numel = 0`, where the model
resolves torch's `-1`-inference corner to the shape `[0, 0]`). -/
def flatten2 (t : TensorRef) (d : Nat) : Except PyError TensorRef :=
  if t.numel % d = 0 then
    .ok ⟨t.sid, [t.numel / d, d]⟩
  else
    .error (.runtimeError
      ("shape '[-1, " ++ toString d ++ "]' is invalid for input of size " ++ toString t.numel))

/-- `t.view(shape)` / `t.reshape(shape)` to an explicit target shape. -/
def toShape (t : TensorRef) (s : List Nat) : Except PyError TensorRef :=
  if t.numel = s.prod then
    .ok ⟨t.sid, s⟩
  else
    .error (.runtimeError
      ("shape '" ++ toString s ++ "' is invalid for input of size " ++ toString t.numel))

/-- Elementwise sum of two data buffers (used by the fused kernel's
"output before norm" result `hidden + residual`). -/
def addData (xs ys : List Int) : List Int := List.zipWith (· + ·) xs ys

/-- Modelled from the spec: `bt_ops.fused_rms_norm` (the `bangtransformer`
kernel binary is not in the sources).  Per spec §4.1 the kernel fuses RMS
normalization with an optional residual addition: it returns a freshly
allocated normalized tensor shaped like its 2-D input and, when a residual
is supplied, the freshly allocated pre-normalization sum `hidden + residual`
(which requires the residual to have the hidden states' 2-D shape).  The
numerical normalization itself is out of scope (spec §1 Non-goals), so the
normalized data is modelled as the input data; only the shape contract and
the residual sum are modelled. -/
def bt_fused_rms_norm (h : Heap) (hidden : TensorRef) (residual : Option TensorRef)
    (weight : TensorRef) (epsilon : ℚ) (store_output_before_norm : Bool) :
    Except PyError ((TensorRef × Option TensorRef) × Heap) :=
  match residual with
  | none =>
      let (normed, h') := allocT h hidden.shape (hidden.val h).data
      .ok ((normed, none), h')
  | some r =>
      if r.shape = hidden.shape then
        let (normed, h1) := allocT h hidden.shape (hidden.val h).data
        let (added, h2) := allocT h1 hidden.shape
          (addData (hidden.val h).data (r.val h).data)
        .ok ((normed, some added), h2)
      else
        .error (.runtimeError "bt_ops.fused_rms_norm: hidden_states and residual shape mismatch")

/-- The documented rank assertion message shared by `rms_norm` and
`add_rms_norm`. -/
def rmsNormAssertMsg : String :=
  "only support hidden_states: [total_seq_len, head_size], [batch_size, seq_lens, head_size]"

/-- `rms_norm(hidden_states, weight, epsilon)` from `camb_ops.py`. -/
def rms_norm (h : Heap) (hidden_states : TensorRef) (weight : TensorRef) (epsilon : ℚ) :
    Except PyError (TensorRef × Heap) := do
  let _ ← pyAssert (1 < hidden_states.ndim ∧ hidden_states.ndim < 4) rmsNormAssertMsg
  -- hidden_states = hidden_states.contiguous()  (identity in the model)
  let shape := hidden_states.shape
  let hidden2d ← flatten2 hidden_states (shape.getLastD 0)
  let store_output_before_norm := false
  let ((normed, _), h1) ← bt_fused_rms_norm h hidden2d none weight epsilon store_output_before_norm
  let normed_hidden_states ← toShape normed shape
  .ok (normed_hidden_states, h1)

/-- `add_rms_norm(hidden_states, residual, weight, epsilon)` from
`camb_ops.py`. -/
def add_rms_norm (h : Heap) (hidden_states residual : TensorRef)
    (weight : TensorRef) (epsilon : ℚ) :
    Except PyError ((TensorRef × TensorRef) × Heap) := do
  let _ ← pyAssert (1 < hidden_states.ndim ∧ hidden_states.ndim < 4) rmsNormAssertMsg
  let shape := hidden_states.shape
  let hidden2d ← flatten2 hidden_states (shape.getLastD 0)
  let residual2d ← flatten2 residual (shape.getLastD 0)
  let store_output_before_norm := true
  let ((normed, addedOpt), h1) ←
    bt_fused_rms_norm h hidden2d (some residual2d) weight epsilon store_output_before_norm
  match addedOpt with
  | none => .error (.runtimeError "bt_ops.fused_rms_norm: missing output before norm")
  | some added => do
      let normed_hidden_states ← toShape normed shape
      let added_hidden_states ← toShape added shape
      .ok ((normed_hidden_states, added_hidden_states), h1)

/-- Tensor indexing `table[ids]` along dimension 0 (used for
`cos_full[position_ids]` / `sin_full[position_ids]`): each entry of `ids`
selects one row of `table` (negative indices wrap, out-of-range indices
raise `IndexError`); the result's shape is `ids.shape ++ table.shape.tail`. -/
def gatherRows (table ids : TensorVal) : Except PyError TensorVal := do
  let len : Int := (table.shape.headD 0 : Nat)
  let rowLen := table.shape.tail.prod
  let rows ← ids.data.mapM (fun i =>
    let j := if i < 0 then i + len else i
    if 0 ≤ j ∧ j < len then
      Except.ok ((table.data.drop (j.toNat * rowLen)).take rowLen)
    else
      Except.error (PyError.indexError ("index " ++ toString i ++ " is out of bounds")))
  .ok ⟨ids.shape ++ table.shape.tail, rows.flatten⟩

/-- Modelled from the spec: the data written by `bt_ops.apply_rotary` (the
`bangtransformer` kernel binary is not in the sources).  Per the spec
(§4.1, glossary) the kernel rotates the input vectors with the precomputed
per-position cosine/sine tables in non-interleaved (rotate-half) layout.
`xs` is the flat input of logical shape `[total_seq, H, D]`; `cs`/`ss` are
the flat cosine/sine tables of logical shape `[total_seq, D]`. -/
def rotaryData (xs cs ss : List Int) (H D : Nat) : List Int :=
  (List.range xs.length).map fun i =>
    let pos := i / (H * D)
    let d := i % D
    let c := cs.getD (pos * D + d) 0
    let s := ss.getD (pos * D + d) 0
    let rotv := if d < D / 2 then -(xs.getD (i + D / 2) 0) else xs.getD (i - D / 2) 0
    xs.getD i 0 * c + rotv * s

/-- Modelled from the spec: `bt_ops.apply_rotary(out, input, sin, cos,
position_ids, cu_seq_lens, interleaved, ..., max_context_len)`.  The kernel
writes the rotated input into the caller-supplied `out` buffer.  By spec
§4.1/§8 the rotation coefficients are exactly the supplied `cos`/`sin`
tables (when `position_ids` is given, the wrapper has already gathered the
per-position rows into `cos`/`sin`), so the model reads `cos`/`sin` only
and does not consult `position_ids`. -/
def bt_apply_rotary (h : Heap) (out input : TensorRef) (sin cos : Option TensorRef)
    (position_ids : Option TensorRef) (cu_seq_lens : TensorRef)
    (interleaved flag1 flag2 : Bool) (max_context_len : Nat) : Except PyError Heap :=
  match sin, cos with
  | some s, some c =>
      let H := input.shape.getD 1 0
      let D := input.shape.getD 2 0
      .ok (h.set out.sid (rotaryData (input.val h).data (c.val h).data (s.val h).data H D))
  | _, _ => .error (.typeError "apply_rotary(): argument 'sin'/'cos' must be Tensor, not None")

/-- `apply_rotary_pos_emb(query, key, cos, sin, position_ids, cos_full,
sin_full)` from `camb_ops.py`. -/
def apply_rotary_pos_emb (h : Heap) (query key : TensorRef)
    (cos sin : Option TensorRef) (position_ids cos_full sin_full : Option TensorRef) :
    Except PyError ((TensorRef × TensorRef) × Heap) := do
  let _ ← pyAssert (query.ndim = 3) "only support q:[totalSeq, head ,head_dim]"
  let _ ← pyAssert (key.ndim = 3) "only support k:[totalSeq, head ,head_dim]"
  let interleaved := false
  -- embeded_query = torch.empty_like(query); embeded_key = torch.empty_like(key)
  let (embeded_query, h1) := allocT h query.shape (List.replicate query.numel 0)
  let (embeded_key, h2) := allocT h1 key.shape (List.replicate key.numel 0)
  -- if position_ids is not None: cos = cos_full[position_ids]; sin = sin_full[position_ids]
  let (cos, sin, h3) ← (match position_ids with
    | some pids => do
        let cf ← match cos_full with
          | some cf => Except.ok cf
          | none => Except.error (PyError.typeError "'NoneType' object is not subscriptable")
        let sf ← match sin_full with
          | some sf => Except.ok sf
          | none => Except.error (PyError.typeError "'NoneType' object is not subscriptable")
        let cosV ← gatherRows (cf.val h2) (pids.val h2)
        let (cosRef, hA) := allocT h2 cosV.shape cosV.data
        let sinV ← gatherRows (sf.val hA) (pids.val hA)
        let (sinRef, hB) := allocT hA sinV.shape sinV.data
        Except.ok (some cosRef, some sinRef, hB)
    | none => Except.ok (cos, sin, h2))
  -- cu_seq_lens = torch.Tensor([0, query.shape[0]]).long().mlu()
  let (cu_seq_lens, h4) := allocT h3 [2] [0, (query.shape.headD 0 : Int)]
  let max_context_len := query.shape.headD 0
  let h5 ← bt_apply_rotary h4 embeded_query query sin cos position_ids cu_seq_lens
    interleaved false false max_context_len
  let h6 ← bt_apply_rotary h5 embeded_key key sin cos position_ids cu_seq_lens
    interleaved false false max_context_len
  .ok ((embeded_query, embeded_key), h6)

/-- Write the entries of `seg` into `st` at consecutive positions starting
at `start` (`List.set` semantics: positions beyond `st`'s length are
dropped). -/
def scatterSeg (st : List Int) (start : Nat) (seg : List Int) : List Int :=
  match seg with
  | [] => st
  | v :: vs => scatterSeg (st.set start v) (start + 1) vs

/-- The flat offset, inside a cache of shape
`[block_num, H, B, D]` (`H` heads, block size `B`, head size `D`), of the
row belonging to global cache slot `slot` and head `hh`: the slot lives in
block `slot / B` at in-block offset `slot % B`. -/
def tokenStart (H B D slot hh : Nat) : Nat :=
  (((slot / B) * H + hh) * B + slot % B) * D

/-- Write one token's `H * D` key (or value) entries `row` into the cache
data `st` at global slot `slot`, one `D`-row per head. -/
def writeToken (st : List Int) (H B D slot : Nat) (row : List Int) : List Int :=
  (List.range H).foldl
    (fun acc hh => scatterSeg acc (tokenStart H B D slot hh) ((row.drop (hh * D)).take D)) st

/-- Scatter all tokens: token `t` (with token data `tok[t*H*D .. (t+1)*H*D)`)
goes to global slot `idxs[t]`; tokens with negative slot indices are
skipped. -/
def scatterTokens (st tok : List Int) (idxs : List Int) (H B D : Nat) : List Int :=
  idxs.enum.foldl
    (fun acc (ts : Nat × Int) =>
      if 0 ≤ ts.2 then
        writeToken acc H B D ts.2.toNat ((tok.drop (ts.1 * (H * D))).take (H * D))
      else acc) st

/-- Decidable test: is flat cache position `p` inside one of the per-head
rows addressed by some slot index in `idxs`? -/
def addressedSlot (H B D : Nat) (idxs : List Int) (p : Nat) : Bool :=
  idxs.any fun s =>
    decide (0 ≤ s) && (List.range H).any fun hh =>
      decide (tokenStart H B D s.toNat hh ≤ p) && decide (p < tokenStart H B D s.toNat hh + D)

/-- Modelled from the spec: `bt_ops.reshape_paged_cache(key, value,
key_cache, value_cache, kv_indices)` (the `bangtransformer` kernel binary
is not in the sources).  Per spec §4.1 it mutates `key_cache` /
`value_cache` in place at the cache slots given by `kv_indices`: token
`t`'s key/value rows are written into global slot `kv_indices[t]` of the
respective cache (one `head_size` row per head). -/
def bt_reshape_paged_cache (h : Heap)
    (key value key_cache value_cache kv_indices : TensorRef) : Except PyError Heap :=
  let H := key_cache.shape.getD 1 0
  let B := key_cache.shape.getD 2 0
  let D := key_cache.shape.getD 3 0
  let idxs := (kv_indices.val h).data
  let kcNew := scatterTokens (key_cache.val h).data (key.val h).data idxs H B D
  let vcNew := scatterTokens (value_cache.val h).data (value.val h).data idxs H B D
  .ok ((h.set key_cache.sid kcNew).set value_cache.sid vcNew)

/-- `fill_kv_cache(key, value, key_cache, value_cache, kv_indices)` from
`camb_ops.py`. -/
def fill_kv_cache (h : Heap) (key value key_cache value_cache kv_indices : TensorRef) :
    Except PyError ((TensorRef × TensorRef) × Heap) := do
  let _ ← pyAssert (key.ndim = 3 ∧ value.ndim = 3)
    "only support key, value: [total_seq_len, head_num, head_size]"
  let _ ← pyAssert (key_cache.ndim = 4 ∧ value_cache.ndim = 4)
    "only support key_cache, value_cache: [block_num, head_num, block_size, head_size]"
  let _ ← pyAssert (kv_indices.ndim = 1) "only support kv_indices: [total_seq_len]"
  -- key = key.contiguous(); value = value.contiguous()  (identity in the model)
  let h1 ← bt_reshape_paged_cache h key value key_cache value_cache kv_indices
  .ok ((key_cache, value_cache), h1)

/-- The one Python float the wrapper layer computes itself, kept symbolic:
`invSqrt dim` is the expression `1. / math.sqrt(dim)`, `lit q` a float
value supplied by the caller (modelled as a rational). -/
inductive ScaleVal where
  | invSqrt (dim : Nat)
  | lit (q : ℚ)
  deriving DecidableEq, Repr

/-- Real-number semantics of a `ScaleVal` (exact semantics of the Python
float expressions, ignoring IEEE rounding). -/
noncomputable def ScaleVal.toReal : ScaleVal → ℝ
  | .invSqrt dim => 1 / Real.sqrt dim
  | .lit q => (q : ℝ)

/-- `torch.max(t)`: the maximum element; raises on an empty tensor. -/
def torchMax (tv : TensorVal) : Except PyError Int :=
  match tv.data with
  | [] => .error (.runtimeError "max(): Expected reduction dim to be specified for input.numel() == 0")
  | x :: xs => .ok (xs.foldl max x)

/-- The argument tuple the wrapper hands to
`bt_ops.single_query_cached_kv_attn`. -/
structure SQCKAArgs where
  query : TensorRef
  key_cache : TensorRef
  value_cache : TensorRef
  block_table : TensorRef
  kv_seq_len : TensorRef
  alibi_slopes : Option (List ℚ)
  out : TensorRef
  max_context_lens : Int
  softmax_scale : ScaleVal
  deriving DecidableEq, Repr

/-- `getattr(None, name)` raises `AttributeError`. -/
def noneAttr (name : String) : PyError :=
  .attributeError ("'NoneType' object has no attribute '" ++ name ++ "'")

/-- The body of `paged_decode_attention(...)` from `camb_ops.py`, up to and
including the construction of the arguments of the final
`bt_ops.single_query_cached_kv_attn(...)` call, in source order. -/
def pagedDecodeAttentionArgs (h : Heap) (query key_cache value_cache : TensorRef)
    (block_table : Option TensorRef) (block_size : Nat) (kv_seq_len : TensorRef)
    (num_q_heads num_kv_heads : Nat) (attn_qk_scale : Option ℚ)
    (alibi_slopes : Option (List ℚ)) (attn_output : Option TensorRef) :
    Except PyError SQCKAArgs := do
  let _ ← pyAssert (query.ndim = 4) "only support q:[batch,seq_q=1, head ,head_dim]"
  let _ ← pyAssert (query.shape.getD 1 0 = 1) "only support seq_q = 1 in paged decode attention"
  let _ ← pyAssert (key_cache.ndim = 4)
    "only support k_cache:[num_blocks, kv_head_num, block_size, head_size]"
  let _ ← pyAssert (value_cache.ndim = 4)
    "only support v_cache:[num_blocks, kv_head_num, block_size, head_size]"
  -- assert block_table.ndim == 2: evaluating the condition dereferences block_table
  let bt ← match block_table with
    | some bt => Except.ok bt
    | none => Except.error (noneAttr "ndim")
  let _ ← pyAssert (bt.ndim = 2) "only support bloack_table:[batch_size, max_num_blocks_per_seq]"
  let _batch_size := bt.shape.getD 0 0
  let dim := query.shape.getD 3 0
  let max_context_lens ← torchMax (kv_seq_len.val h)
  let softmax_scale := ScaleVal.invSqrt dim
  -- out = attn_output.view_as(query)
  let ao ← match attn_output with
    | some ao => Except.ok ao
    | none => Except.error (noneAttr "view_as")
  let out ← toShape ao query.shape
  .ok ⟨query, key_cache, value_cache, bt, kv_seq_len, alibi_slopes, out, max_context_lens,
    softmax_scale⟩

/-- Modelled from the spec: the data
`bt_ops.single_query_cached_kv_attn` writes into its `out` buffer (the
`bangtransformer` kernel binary is not in the sources).  The attention
arithmetic itself is out of scope (spec §1 Non-goals); only the contract
that the kernel fills the `out` buffer — one value per query element — is
modelled, so the written data is modelled as the query's data. -/
def sqckaOutData (a : SQCKAArgs) (h : Heap) : List Int :=
  (a.query.val h).data

/-- `paged_decode_attention(...)` from `camb_ops.py`: builds the kernel
arguments, lets the kernel write into `out` (which aliases
`attn_output`'s storage), and falls off the end of the function body —
the Python function implicitly returns `None`, hence the `Option TensorRef`
result component is always `none`. -/
def paged_decode_attention (h : Heap) (query key_cache value_cache : TensorRef)
    (block_table : Option TensorRef) (block_size : Nat) (kv_seq_len : TensorRef)
    (num_q_heads num_kv_heads : Nat) (attn_qk_scale : Option ℚ)
    (alibi_slopes : Option (List ℚ)) (attn_output : Option TensorRef) :
    Except PyError (Option TensorRef × Heap) := do
  let a ← pagedDecodeAttentionArgs h query key_cache value_cache block_table block_size
    kv_seq_len num_q_heads num_kv_heads attn_qk_scale alibi_slopes attn_output
  .ok (none, h.set a.out.sid (sqckaOutData a h))

/-! ## Heap bookkeeping lemmas -/

theorem getD_append_lt {α : Type} (l l' : List α) (d : α) (i : Nat) (hi : i < l.length) :
    (l ++ l').getD i d = l.getD i d := by
  simp [List.getD, List.getElem?_append_left hi]

theorem getD_append_self {α : Type} (l l' : List α) (d : α) (k : Nat) :
    (l ++ l').getD (l.length + k) d = l'.getD k d := by
  simp [List.getD, List.getElem?_append_right (Nat.le_add_right _ _)]

theorem getD_set_ne {α : Type} (l : List α) (i j : Nat) (x d : α) (hij : i ≠ j) :
    (l.set i x).getD j d = l.getD j d := by
  simp [List.getD, List.getElem?_set_ne hij]

theorem getD_set_self {α : Type} (l : List α) (i : Nat) (x d : α) (hi : i < l.length) :
    (l.set i x).getD i d = x := by
  simp [List.getD, List.getElem?_set_self hi]

/-! ## Norm wrappers: the rank-2/3 shapes -/

/-- For a rank-2 or rank-3 shape, the last dimension divides the element
count. -/
theorem lastDim_dvd_prod (s : List Nat) (hs : s.length = 2 ∨ s.length = 3) :
    s.getLastD 0 ∣ s.prod := by
  rcases hs with hs | hs
  · obtain ⟨a, b, rfl⟩ := List.length_eq_two.mp hs
    simp [List.getLastD]
  · obtain ⟨a, b, c, rfl⟩ := List.length_eq_three.mp hs
    simpa [List.getLastD, Nat.mul_comm, Nat.mul_assoc] using ⟨a * b, by ring⟩

@[simp] theorem exceptBind_ok {ε α β : Type} (x : α) (f : α → Except ε β) :
    (Except.ok x >>= f) = f x := rfl

@[simp] theorem exceptBind_error {ε α β : Type} (e : ε) (f : α → Except ε β) :
    ((Except.error e : Except ε α) >>= f) = Except.error e := rfl

@[simp] theorem exceptBindF_ok {ε α β : Type} (x : α) (f : α → Except ε β) :
    (Except.ok x : Except ε α).bind f = f x := rfl

@[simp] theorem exceptBindF_error {ε α β : Type} (e : ε) (f : α → Except ε β) :
    (Except.error e : Except ε α).bind f = Except.error e := rfl

/-- On a rank-2/3 input, `rms_norm` runs to completion: it allocates the
kernel's output storage and returns it viewed back to the input's shape. -/
theorem rms_norm_ok (h : Heap) (hs w : TensorRef) (ε : ℚ)
    (hrank : hs.ndim = 2 ∨ hs.ndim = 3) :
    rms_norm h hs w ε = .ok (⟨h.length, hs.shape⟩, h ++ [h.getD hs.sid []]) := by
  obtain ⟨c, hc⟩ := lastDim_dvd_prod _ hrank
  have h1 : 1 < hs.shape.length := by rcases hrank with h' | h' <;> simp [TensorRef.ndim] at * <;> omega
  have h2 : hs.shape.length < 4 := by rcases hrank with h' | h' <;> simp [TensorRef.ndim] at * <;> omega
  have hc' : hs.shape.prod = hs.shape.getLast?.getD 0 * c := by
    rw [← List.getLastD_eq_getLast?]; exact hc
  have hmod : hs.shape.prod % hs.shape.getLast?.getD 0 = 0 := by
    simp [hc', Nat.mul_mod_right]
  have hdiv : hs.shape.prod / hs.shape.getLast?.getD 0 * hs.shape.getLast?.getD 0 =
      hs.shape.prod := Nat.div_mul_cancel ⟨c, hc'⟩
  simp [rms_norm, pyAssert, flatten2, toShape, bt_fused_rms_norm, allocT,
    TensorRef.ndim, TensorRef.numel, TensorRef.val, hmod, hdiv, h1, h2]

/-- On a rank-2/3 input with an element-count-matching residual,
`add_rms_norm` runs to completion: it allocates the kernel's two output
storages and returns them viewed back to the input's shape. -/
theorem add_rms_norm_ok (h : Heap) (hs res w : TensorRef) (ε : ℚ)
    (hrank : hs.ndim = 2 ∨ hs.ndim = 3) (hnumel : res.numel = hs.numel) :
    add_rms_norm h hs res w ε =
      .ok ((⟨h.length, hs.shape⟩, ⟨h.length + 1, hs.shape⟩),
        h ++ [h.getD hs.sid [], addData (h.getD hs.sid []) (h.getD res.sid [])]) := by
  obtain ⟨c, hc⟩ := lastDim_dvd_prod _ hrank
  have h1 : 1 < hs.shape.length := by
    rcases hrank with h' | h' <;> simp [TensorRef.ndim] at * <;> omega
  have h2 : hs.shape.length < 4 := by
    rcases hrank with h' | h' <;> simp [TensorRef.ndim] at * <;> omega
  have hc' : hs.shape.prod = hs.shape.getLast?.getD 0 * c := by
    rw [← List.getLastD_eq_getLast?]; exact hc
  have hnumel' : res.shape.prod = hs.shape.prod := hnumel
  have hmod : hs.shape.prod % hs.shape.getLast?.getD 0 = 0 := by
    simp [hc', Nat.mul_mod_right]
  have hdiv : hs.shape.prod / hs.shape.getLast?.getD 0 * hs.shape.getLast?.getD 0 =
      hs.shape.prod := Nat.div_mul_cancel ⟨c, hc'⟩
  simp [add_rms_norm, pyAssert, flatten2, toShape, bt_fused_rms_norm, allocT, addData,
    TensorRef.ndim, TensorRef.numel, TensorRef.val, hmod, hdiv, hnumel', h1, h2]

/-- On a rank-2/3 input, `add_rms_norm` never raises an assertion error:
its only assertion is the rank check; all later failures are
`RuntimeError`s. -/
theorem add_rms_norm_no_assert (h : Heap) (hs res w : TensorRef) (ε : ℚ)
    (hrank : hs.ndim = 2 ∨ hs.ndim = 3) (msg : String) :
    add_rms_norm h hs res w ε ≠ .error (.assertionError msg) := by
  obtain ⟨c, hc⟩ := lastDim_dvd_prod _ hrank
  have h1 : 1 < hs.shape.length := by
    rcases hrank with h' | h' <;> simp [TensorRef.ndim] at * <;> omega
  have h2 : hs.shape.length < 4 := by
    rcases hrank with h' | h' <;> simp [TensorRef.ndim] at * <;> omega
  have hc' : hs.shape.prod = hs.shape.getLast?.getD 0 * c := by
    rw [← List.getLastD_eq_getLast?]; exact hc
  have hmod : hs.shape.prod % hs.shape.getLast?.getD 0 = 0 := by
    simp [hc', Nat.mul_mod_right]
  have hdiv : hs.shape.prod / hs.shape.getLast?.getD 0 * hs.shape.getLast?.getD 0 =
      hs.shape.prod := Nat.div_mul_cancel ⟨c, hc'⟩
  by_cases hres : res.shape.prod % hs.shape.getLast?.getD 0 = 0
  · by_cases hrows :
        res.shape.prod / hs.shape.getLast?.getD 0 = hs.shape.prod / hs.shape.getLast?.getD 0
    · simp [add_rms_norm, pyAssert, flatten2, toShape, bt_fused_rms_norm, allocT, addData,
        TensorRef.ndim, TensorRef.numel, TensorRef.val, hmod, hdiv, hres, hrows, h1, h2]
    · simp [add_rms_norm, pyAssert, flatten2, toShape, bt_fused_rms_norm, allocT, addData,
        TensorRef.ndim, TensorRef.numel, TensorRef.val, hmod, hdiv, hres, hrows, h1, h2]
  · simp [add_rms_norm, pyAssert, flatten2, toShape, bt_fused_rms_norm, allocT, addData,
      TensorRef.ndim, TensorRef.numel, TensorRef.val, hmod, hres, h1, h2]

/-- On an input of rank outside {2, 3}, both norm wrappers stop at the
documented rank assertion. -/
theorem norm_rank_assert_fires (h : Heap) (hs res w : TensorRef) (ε : ℚ)
    (hrank : ¬ (hs.ndim = 2 ∨ hs.ndim = 3)) :
    rms_norm h hs w ε = .error (.assertionError rmsNormAssertMsg) ∧
    add_rms_norm h hs res w ε = .error (.assertionError rmsNormAssertMsg) := by
  have hbad : ¬ (1 < hs.ndim ∧ hs.ndim < 4) := by omega
  constructor <;> simp [rms_norm, add_rms_norm, pyAssert, hbad]

/-! ## Claims about the norm wrappers -/

/-- **C5**: for every `hidden_states` of rank outside {2, 3}, both
`rms_norm` and `add_rms_norm` fail with the documented assertion (with its
descriptive message); for rank 2 or 3 the assertion does not fire and
dispatch proceeds: `rms_norm` reaches the kernel and returns, and
`add_rms_norm` can only fail later with a non-assertion error (and
succeeds whenever the residual's element count matches). -/
theorem claimC5_rank_assertion (h : Heap) (hs res w : TensorRef) (ε : ℚ) :
    (¬ (hs.ndim = 2 ∨ hs.ndim = 3) →
      rms_norm h hs w ε = .error (.assertionError rmsNormAssertMsg) ∧
      add_rms_norm h hs res w ε = .error (.assertionError rmsNormAssertMsg)) ∧
    ((hs.ndim = 2 ∨ hs.ndim = 3) →
      (∃ out, rms_norm h hs w ε = .ok out) ∧
      (∀ msg, add_rms_norm h hs res w ε ≠ .error (.assertionError msg)) ∧
      (res.numel = hs.numel → ∃ out, add_rms_norm h hs res w ε = .ok out)) := by
  refine ⟨fun hbad => norm_rank_assert_fires h hs res w ε hbad, fun hrank => ?_⟩
  exact ⟨⟨_, rms_norm_ok h hs w ε hrank⟩,
    fun msg => add_rms_norm_no_assert h hs res w ε hrank msg,
    fun hnumel => ⟨_, add_rms_norm_ok h hs res w ε hrank hnumel⟩⟩

/-- Witness for C5 at concrete inputs: a rank-1 tensor trips the assertion
in both wrappers; a rank-2 tensor passes it and `rms_norm` succeeds. -/
theorem claimC5_rank_assertion_witness :
    (rms_norm [[1, 2]] ⟨0, [2]⟩ ⟨0, [2]⟩ 1 = .error (.assertionError rmsNormAssertMsg) ∧
      add_rms_norm [[1, 2]] ⟨0, [2]⟩ ⟨0, [2]⟩ ⟨0, [2]⟩ 1 =
        .error (.assertionError rmsNormAssertMsg)) ∧
    (∃ out, rms_norm [[1, 2]] ⟨0, [1, 2]⟩ ⟨0, [2]⟩ 1 = .ok out) :=
  ⟨(claimC5_rank_assertion [[1, 2]] ⟨0, [2]⟩ ⟨0, [2]⟩ ⟨0, [2]⟩ 1).1 (by decide),
    ((claimC5_rank_assertion [[1, 2]] ⟨0, [1, 2]⟩ ⟨0, [2]⟩ ⟨0, [2]⟩ 1).2 (by decide)).1⟩

/-- **C7**: for every `hidden_states` of rank 2 or 3, `rms_norm` succeeds
and returns a tensor whose shape is exactly the input's shape. -/
theorem claimC7_rms_norm_shape (h : Heap) (hs w : TensorRef) (ε : ℚ)
    (hrank : hs.ndim = 2 ∨ hs.ndim = 3) :
    ∃ r h', rms_norm h hs w ε = .ok (r, h') ∧ r.shape = hs.shape :=
  ⟨_, _, rms_norm_ok h hs w ε hrank, rfl⟩

/-- Witness for C7, at the spec's concrete scenario: `hidden_states` of
shape `[4, 8]`, `weight` of shape `[8]`, `epsilon = 1e-5`; the result has
shape `[4, 8]`. -/
theorem claimC7_rms_norm_shape_witness :
    ((⟨0, [4, 8]⟩ : TensorRef).ndim = 2 ∨ (⟨0, [4, 8]⟩ : TensorRef).ndim = 3) ∧
    (∃ r h', rms_norm [List.replicate 32 0, List.replicate 8 1] ⟨0, [4, 8]⟩ ⟨1, [8]⟩
        (1 / 100000) = .ok (r, h') ∧ r.shape = [4, 8]) :=
  ⟨Or.inl rfl,
    claimC7_rms_norm_shape [List.replicate 32 0, List.replicate 8 1] ⟨0, [4, 8]⟩ ⟨1, [8]⟩
      (1 / 100000) (Or.inl rfl)⟩

/-- **C10 (counterexample)**: `hidden_states` of shape `[2, 2]` (4
elements) with `residual` of shape `[3, 2]` (6 elements — a mismatched
element count) does *not* fail in the reshape: `residual.reshape(-1, 2)`
succeeds (6 is a multiple of the last dimension 2), and the failure
surfaces only at the kernel dispatch, refuting the claim that every
mismatched element count fails in the reshape. -/
theorem claimC10_counterexample :
    flatten2 ⟨1, [3, 2]⟩ 2 = .ok ⟨1, [3, 2]⟩ ∧
    add_rms_norm [[1, 2, 3, 4], [10, 20, 30, 40, 50, 60], [1, 1]]
        ⟨0, [2, 2]⟩ ⟨1, [3, 2]⟩ ⟨2, [2]⟩ 1 =
      .error (.runtimeError "bt_ops.fused_rms_norm: hidden_states and residual shape mismatch") := by
  constructor <;> rfl

/-- **C10 (amended)**: `add_rms_norm` asserts only the rank of
`hidden_states` and places no assertion on `residual`: every residual whose
element count matches `hidden_states` is accepted regardless of its own
rank or shape; a residual whose element count is *not a multiple of
`hidden_states`' last dimension* fails in the reshape (a `RuntimeError`,
not a descriptive assertion); a mismatched-but-multiple element count
passes the reshape (failing only at kernel dispatch). -/
theorem claimC10_residual_contract (h : Heap) (hs res w : TensorRef) (ε : ℚ)
    (hrank : hs.ndim = 2 ∨ hs.ndim = 3) :
    (res.numel = hs.numel → ∃ out, add_rms_norm h hs res w ε = .ok out) ∧
    (∀ msg, add_rms_norm h hs res w ε ≠ .error (.assertionError msg)) ∧
    (¬ (res.numel % hs.shape.getLastD 0 = 0) →
      add_rms_norm h hs res w ε = .error (.runtimeError
        ("shape '[-1, " ++ toString (hs.shape.getLastD 0) ++ "]' is invalid for input of size "
          ++ toString res.numel))) := by
  refine ⟨fun hnumel => ⟨_, add_rms_norm_ok h hs res w ε hrank hnumel⟩,
    fun msg => add_rms_norm_no_assert h hs res w ε hrank msg, fun hres => ?_⟩
  obtain ⟨c, hc⟩ := lastDim_dvd_prod _ hrank
  have h1 : 1 < hs.shape.length := by
    rcases hrank with h' | h' <;> simp [TensorRef.ndim] at * <;> omega
  have h2 : hs.shape.length < 4 := by
    rcases hrank with h' | h' <;> simp [TensorRef.ndim] at * <;> omega
  have hc' : hs.shape.prod = hs.shape.getLast?.getD 0 * c := by
    rw [← List.getLastD_eq_getLast?]; exact hc
  have hmod : hs.shape.prod % hs.shape.getLast?.getD 0 = 0 := by
    simp [hc', Nat.mul_mod_right]
  have hres' : ¬ (res.shape.prod % hs.shape.getLast?.getD 0 = 0) := by
    rw [← List.getLastD_eq_getLast?]; exact hres
  simp only [← List.getLastD_eq_getLast?] at hmod
  simp [add_rms_norm, pyAssert, flatten2, TensorRef.ndim, TensorRef.numel,
    hmod, hres, h1, h2, List.getLastD_eq_getLast?] at *
  simp [hmod, hres']

/-- Witness for C10 (amended) at a concrete input: a rank-1 residual of
matching element count (4) is accepted against a `[2, 2]` hidden-states
tensor. -/
theorem claimC10_residual_contract_witness :
    ∃ out, add_rms_norm [[1, 2, 3, 4], [9, 9, 9, 9], [1, 1]]
      ⟨0, [2, 2]⟩ ⟨1, [4]⟩ ⟨2, [2]⟩ 1 = .ok out :=
  (claimC10_residual_contract [[1, 2, 3, 4], [9, 9, 9, 9], [1, 1]]
    ⟨0, [2, 2]⟩ ⟨1, [4]⟩ ⟨2, [2]⟩ 1 (Or.inl rfl)).1 (by decide)

/-! ## Scatter lemmas for the paged-cache write -/

theorem scatterSeg_getD_outside (seg : List Int) (st : List Int) (start p : Nat)
    (hp : p < start ∨ start + seg.length ≤ p) :
    (scatterSeg st start seg).getD p 0 = st.getD p 0 := by
  induction seg generalizing st start with
  | nil => rfl
  | cons v vs ih =>
      simp only [List.length_cons] at hp
      rw [scatterSeg, ih (st.set start v) (start + 1) (by omega),
        getD_set_ne _ _ _ _ _ (by omega)]

theorem scatterSeg_length (seg : List Int) (st : List Int) (start : Nat) :
    (scatterSeg st start seg).length = st.length := by
  induction seg generalizing st start with
  | nil => rfl
  | cons v vs ih => rw [scatterSeg, ih, List.length_set]

theorem foldl_getD_preserve {β : Type} (l : List β) (f : List Int → β → List Int)
    (P : Nat → Prop) (hf : ∀ st b, b ∈ l → ∀ p, P p → (f st b).getD p 0 = st.getD p 0) :
    ∀ st p, P p → (l.foldl f st).getD p 0 = st.getD p 0 := by
  induction l with
  | nil => intro st p hp; rfl
  | cons b bs ih =>
      intro st p hp
      rw [List.foldl_cons, ih (fun st' b' hb' => hf st' b' (List.mem_cons_of_mem _ hb')) _ p hp,
        hf st b (List.mem_cons_self b bs) p hp]

theorem foldl_length_preserve {β : Type} (l : List β) (f : List Int → β → List Int)
    (hf : ∀ st b, (f st b).length = st.length) :
    ∀ st, (l.foldl f st).length = st.length := by
  induction l with
  | nil => intro st; rfl
  | cons b bs ih => intro st; rw [List.foldl_cons, ih, hf]

theorem writeToken_getD_outside (st : List Int) (H B D slot : Nat) (row : List Int) (p : Nat)
    (hp : ∀ hh, hh < H → ¬ (tokenStart H B D slot hh ≤ p ∧ p < tokenStart H B D slot hh + D)) :
    (writeToken st H B D slot row).getD p 0 = st.getD p 0 := by
  refine foldl_getD_preserve _ _ (fun q => q = p) ?_ st p rfl
  intro st' hh hmem q hq
  subst hq
  have hhH : hh < H := List.mem_range.mp hmem
  refine scatterSeg_getD_outside _ _ _ _ ?_
  have hlen : ((row.drop (hh * D)).take D).length ≤ D := by
    simp [List.length_take]
  have := hp hh hhH
  omega

theorem writeToken_length (st : List Int) (H B D slot : Nat) (row : List Int) :
    (writeToken st H B D slot row).length = st.length :=
  foldl_length_preserve _ _ (fun st' hh => scatterSeg_length _ st' _) st

theorem scatterTokens_getD_not_addressed (st tok : List Int) (idxs : List Int) (H B D p : Nat)
    (hp : addressedSlot H B D idxs p = false) :
    (scatterTokens st tok idxs H B D).getD p 0 = st.getD p 0 := by
  have hp' : ∀ s ∈ idxs, 0 ≤ s →
      ∀ hh, hh < H → ¬ (tokenStart H B D s.toNat hh ≤ p ∧ p < tokenStart H B D s.toNat hh + D) := by
    intro s hs hpos hh hhH hc
    have hne := List.any_eq_false.mp hp s hs
    simp only [Bool.and_eq_true, decide_eq_true_eq, List.any_eq_true, List.mem_range,
      not_and, not_exists] at hne
    exact absurd hc (by simpa using hne hpos hh hhH)
  refine foldl_getD_preserve _ _ (fun q => q = p) ?_ st p rfl
  intro st' ts hmem q hq
  subst hq
  obtain ⟨t, s⟩ := ts
  obtain ⟨htlen, hseq⟩ := List.mem_enum hmem
  have hsmem : s ∈ idxs := hseq ▸ List.getElem_mem htlen
  by_cases hpos : (0 : Int) ≤ s
  · simp only [hpos, if_pos]
    exact writeToken_getD_outside _ _ _ _ _ _ _ (hp' s hsmem hpos)
  · simp [hpos]

theorem scatterTokens_length (st tok : List Int) (idxs : List Int) (H B D : Nat) :
    (scatterTokens st tok idxs H B D).length = st.length := by
  refine foldl_length_preserve _ _ ?_ st
  intro st' ts
  by_cases hpos : (0 : Int) ≤ ts.2
  · simp only [hpos, if_pos]
    exact writeToken_length _ _ _ _ _ _
  · simp [hpos]

/-- With all rank assertions satisfied, `fill_kv_cache` passes the input
cache references straight through and updates exactly their two storages
with the scattered token rows. -/
theorem fill_kv_cache_ok (h : Heap) (key value key_cache value_cache kv_indices : TensorRef)
    (hk : key.ndim = 3) (hv : value.ndim = 3)
    (hkc : key_cache.ndim = 4) (hvc : value_cache.ndim = 4) (hidx : kv_indices.ndim = 1) :
    fill_kv_cache h key value key_cache value_cache kv_indices =
      .ok ((key_cache, value_cache),
        (h.set key_cache.sid
          (scatterTokens (h.getD key_cache.sid []) (h.getD key.sid [])
            (h.getD kv_indices.sid []) (key_cache.shape.getD 1 0) (key_cache.shape.getD 2 0)
            (key_cache.shape.getD 3 0))).set value_cache.sid
          (scatterTokens (h.getD value_cache.sid []) (h.getD value.sid [])
            (h.getD kv_indices.sid []) (key_cache.shape.getD 1 0) (key_cache.shape.getD 2 0)
            (key_cache.shape.getD 3 0))) := by
  simp [fill_kv_cache, pyAssert, bt_reshape_paged_cache, TensorRef.val, hk, hv, hkc, hvc, hidx]

/-- **C3**: with rank-3 key/value, rank-4 caches and rank-1 indices,
`fill_kv_cache` mutates the two cache storages in place (same storages,
unchanged lengths, every other storage untouched), leaves every cache
position outside the slots addressed by `kv_indices` unchanged, and
returns the very same `key_cache`/`value_cache` tensor objects that were
passed in (a pass-through handle, not a copy).  (The writes at the
addressed slots themselves are the spec-modelled
`bt_ops.reshape_paged_cache` scatter.) -/
theorem claimC3_fill_kv_cache_frame (h : Heap)
    (key value key_cache value_cache kv_indices : TensorRef)
    (hk : key.ndim = 3) (hv : value.ndim = 3)
    (hkc : key_cache.ndim = 4) (hvc : value_cache.ndim = 4) (hidx : kv_indices.ndim = 1)
    (hkwf : key_cache.sid < h.length) (hvwf : value_cache.sid < h.length)
    (hne : key_cache.sid ≠ value_cache.sid) :
    ∃ h', fill_kv_cache h key value key_cache value_cache kv_indices =
        .ok ((key_cache, value_cache), h') ∧
      h'.length = h.length ∧
      (∀ sid, sid ≠ key_cache.sid → sid ≠ value_cache.sid →
        h'.getD sid [] = h.getD sid []) ∧
      (h'.getD key_cache.sid []).length = (h.getD key_cache.sid []).length ∧
      (h'.getD value_cache.sid []).length = (h.getD value_cache.sid []).length ∧
      (∀ p, addressedSlot (key_cache.shape.getD 1 0) (key_cache.shape.getD 2 0)
          (key_cache.shape.getD 3 0) (h.getD kv_indices.sid []) p = false →
        (h'.getD key_cache.sid []).getD p 0 = (h.getD key_cache.sid []).getD p 0 ∧
        (h'.getD value_cache.sid []).getD p 0 = (h.getD value_cache.sid []).getD p 0) := by
  refine ⟨_, fill_kv_cache_ok h key value key_cache value_cache kv_indices hk hv hkc hvc hidx,
    ?_, ?_, ?_, ?_, ?_⟩
  · simp
  · intro sid hsk hsv
    rw [getD_set_ne _ _ _ _ _ (fun hEq => hsv hEq.symm),
      getD_set_ne _ _ _ _ _ (fun hEq => hsk hEq.symm)]
  · rw [getD_set_ne _ _ _ _ _ (fun hEq => hne hEq.symm),
      getD_set_self _ _ _ _ (by simpa using hkwf), scatterTokens_length]
  · rw [getD_set_self _ _ _ _ (by simpa using hvwf)]
    exact scatterTokens_length _ _ _ _ _ _
  · intro p hp
    constructor
    · rw [getD_set_ne _ _ _ _ _ (fun hEq => hne hEq.symm),
        getD_set_self _ _ _ _ (by simpa using hkwf)]
      exact scatterTokens_getD_not_addressed _ _ _ _ _ _ _ hp
    · rw [getD_set_self _ _ _ _ (by simpa using hvwf)]
      exact scatterTokens_getD_not_addressed _ _ _ _ _ _ _ hp

/-- Witness for C3 at a concrete input: one token written to slot 0 of a
`[1, 1, 2, 2]` cache; positions 2 and 3 (slot 1) are unaddressed and keep
their snapshot values. -/
theorem claimC3_fill_kv_cache_frame_witness :
    ∃ h', fill_kv_cache [[7, 8], [9, 10], [0, 0, 0, 0], [1, 1, 1, 1], [0]]
        ⟨0, [1, 1, 2]⟩ ⟨1, [1, 1, 2]⟩ ⟨2, [1, 1, 2, 2]⟩ ⟨3, [1, 1, 2, 2]⟩ ⟨4, [1]⟩ =
          .ok ((⟨2, [1, 1, 2, 2]⟩, ⟨3, [1, 1, 2, 2]⟩), h') ∧
      h'.length = 5 ∧
      (∀ sid, sid ≠ 2 → sid ≠ 3 → h'.getD sid [] =
        ([[7, 8], [9, 10], [0, 0, 0, 0], [1, 1, 1, 1], [0]] : Heap).getD sid []) ∧
      (h'.getD 2 []).length = 4 ∧
      (h'.getD 3 []).length = 4 ∧
      (∀ p, addressedSlot 1 2 2 [0] p = false →
        (h'.getD 2 []).getD p 0 = ([0, 0, 0, 0] : List Int).getD p 0 ∧
        (h'.getD 3 []).getD p 0 = ([1, 1, 1, 1] : List Int).getD p 0) :=
  claimC3_fill_kv_cache_frame [[7, 8], [9, 10], [0, 0, 0, 0], [1, 1, 1, 1], [0]]
    ⟨0, [1, 1, 2]⟩ ⟨1, [1, 1, 2]⟩ ⟨2, [1, 1, 2, 2]⟩ ⟨3, [1, 1, 2, 2]⟩ ⟨4, [1]⟩
    rfl rfl rfl rfl rfl (by decide) (by decide) (by decide)

theorem getD_concat_self {α : Type} (l l' : List α) (x d : α) :
    (l ++ x :: l').getD l.length d = x := by
  simpa using getD_append_self l (x :: l') d 0

/-- The `position_ids` path of `apply_rotary_pos_emb`: the cos/sin tables
are gathered from `cos_full`/`sin_full`, two fresh output buffers are
allocated at the next two storage ids, and the kernel writes the rotated
query/key into them. -/
theorem apply_rotary_pids_ok (h : Heap) (query key pids cf sf : TensorRef)
    (c0 s0 : Option TensorRef) (gc gs : TensorVal)
    (hq : query.ndim = 3) (hk : key.ndim = 3)
    (hqs : query.sid < h.length) (hks : key.sid < h.length)
    (hcs : cf.sid < h.length) (hss : sf.sid < h.length) (hps : pids.sid < h.length)
    (hgc : gatherRows (cf.val h) (pids.val h) = .ok gc)
    (hgs : gatherRows (sf.val h) (pids.val h) = .ok gs) :
    apply_rotary_pos_emb h query key c0 s0 (some pids) (some cf) (some sf) =
      .ok ((⟨h.length, query.shape⟩, ⟨h.length + 1, key.shape⟩),
        ((h ++ [List.replicate query.numel 0] ++ [List.replicate key.numel 0]
            ++ [gc.data] ++ [gs.data] ++ [[0, (query.shape.headD 0 : Int)]]).set h.length
          (rotaryData (h.getD query.sid []) gc.data gs.data
            (query.shape.getD 1 0) (query.shape.getD 2 0))).set (h.length + 1)
          (rotaryData (h.getD key.sid []) gc.data gs.data
            (key.shape.getD 1 0) (key.shape.getD 2 0))) := by
  have L : ∀ (l : Heap) (t : TensorRef), t.sid < h.length → t.val (h ++ l) = t.val h := by
    intro l t ht
    simp only [TensorRef.val]
    rw [getD_append_lt _ _ _ _ ht]
  simp only [apply_rotary_pos_emb, pyAssert, allocT, hq, hk, List.append_assoc,
    List.singleton_append, if_true, eq_self_iff_true, exceptBind_ok]
  rw [L _ cf hcs, L _ pids hps, hgc]
  simp only [exceptBind_ok]
  rw [L _ sf hss, L _ pids hps, hgs]
  simp only [exceptBind_ok, bt_apply_rotary, List.append_assoc, List.cons_append,
    List.singleton_append, List.length_append, List.length_cons, List.length_nil]
  have hkne : List.length h ≠ key.sid := Nat.ne_of_gt hks
  have hqne : List.length h ≠ query.sid := Nat.ne_of_gt hqs
  have W : ∀ (l : Heap) (i : Nat) (x : List Int) (t : TensorRef), i ≠ t.sid →
      t.val (l.set i x) = t.val l := by
    intro l i x t hne
    simp only [TensorRef.val]
    rw [getD_set_ne _ _ _ _ _ hne]
  have V : ∀ (k : Nat) (tail : Heap) (sh : List Nat),
      (⟨List.length h + k, sh⟩ : TensorRef).val (h ++ tail) = ⟨sh, tail.getD k []⟩ := by
    intro k tail sh
    simp only [TensorRef.val]
    rw [getD_append_self]
  simp only [List.nil_append, Nat.zero_add, Nat.add_zero]
  simp [L, V, W, hkne, hqne, hqs, hks]
  constructor <;> · congr 1; simp [TensorRef.val, List.getD, List.getElem?_eq_getElem, hqs, hks]

/-- The direct-`cos`/`sin` path of `apply_rotary_pos_emb` (no
`position_ids`): `cos_full`/`sin_full` are ignored, two fresh output
buffers are allocated at the next two storage ids, and the kernel writes
the rotated query/key into them using the supplied tables. -/
theorem apply_rotary_direct_ok (h : Heap) (query key c s : TensorRef)
    (cfo sfo : Option TensorRef)
    (hq : query.ndim = 3) (hk : key.ndim = 3)
    (hqs : query.sid < h.length) (hks : key.sid < h.length)
    (hcs : c.sid < h.length) (hss : s.sid < h.length) :
    apply_rotary_pos_emb h query key (some c) (some s) none cfo sfo =
      .ok ((⟨h.length, query.shape⟩, ⟨h.length + 1, key.shape⟩),
        ((h ++ [List.replicate query.numel 0] ++ [List.replicate key.numel 0]
            ++ [[0, (query.shape.headD 0 : Int)]]).set h.length
          (rotaryData (h.getD query.sid []) (h.getD c.sid []) (h.getD s.sid [])
            (query.shape.getD 1 0) (query.shape.getD 2 0))).set (h.length + 1)
          (rotaryData (h.getD key.sid []) (h.getD c.sid []) (h.getD s.sid [])
            (key.shape.getD 1 0) (key.shape.getD 2 0))) := by
  have L : ∀ (l : Heap) (t : TensorRef), t.sid < List.length h → t.val (h ++ l) = t.val h := by
    intro l t ht
    simp only [TensorRef.val]
    rw [getD_append_lt _ _ _ _ ht]
  have W : ∀ (l : Heap) (i : Nat) (x : List Int) (t : TensorRef), i ≠ t.sid →
      t.val (l.set i x) = t.val l := by
    intro l i x t hne
    simp only [TensorRef.val]
    rw [getD_set_ne _ _ _ _ _ hne]
  have hkne : List.length h ≠ key.sid := Nat.ne_of_gt hks
  have hqne : List.length h ≠ query.sid := Nat.ne_of_gt hqs
  have hcne : List.length h ≠ c.sid := Nat.ne_of_gt hcs
  have hsne : List.length h ≠ s.sid := Nat.ne_of_gt hss
  simp only [apply_rotary_pos_emb, pyAssert, allocT, hq, hk, List.append_assoc,
    List.singleton_append, if_true, eq_self_iff_true, exceptBind_ok, bt_apply_rotary,
    List.nil_append, Nat.zero_add, Nat.add_zero]
  simp [L, W, hkne, hqne, hcne, hsne, hqs, hks, hcs, hss]
  constructor <;>
    · congr 1 <;>
        simp [TensorRef.val, List.getD, List.getElem?_eq_getElem, hqs, hks, hcs, hss]

theorem getD_setset_fst {α : Type} (l : List α) (i : Nat) (x y d : α) (hi : i < l.length) :
    ((l.set i x).set (i + 1) y).getD i d = x := by
  rw [getD_set_ne _ _ _ _ _ (Nat.succ_ne_self i), getD_set_self _ _ _ _ hi]

theorem getD_setset_snd {α : Type} (l : List α) (i : Nat) (x y d : α) (hi : i + 1 < l.length) :
    ((l.set i x).set (i + 1) y).getD (i + 1) d = y := by
  rw [getD_set_self]
  simpa using hi

/-- **C2**: for rank-3 query/key and a supplied `position_ids`, calling
`apply_rotary_pos_emb` with `position_ids`, `cos_full`, `sin_full` returns
the same embedded query/key values as calling it with
`cos = cos_full[position_ids]` and `sin = sin_full[position_ids]`
pre-indexed manually and no `position_ids`; the directly passed
`cos`/`sin` (`c0`/`s0`) are overridden by the table lookup. -/
theorem claimC2_rotary_table_lookup (h : Heap) (query key pids cf sf cpre spre : TensorRef)
    (c0 s0 : Option TensorRef) (gc gs : TensorVal)
    (hq : query.ndim = 3) (hk : key.ndim = 3)
    (hqs : query.sid < h.length) (hks : key.sid < h.length)
    (hcs : cf.sid < h.length) (hss : sf.sid < h.length) (hps : pids.sid < h.length)
    (hcp : cpre.sid < h.length) (hsp : spre.sid < h.length)
    (hgc : gatherRows (cf.val h) (pids.val h) = .ok gc)
    (hgs : gatherRows (sf.val h) (pids.val h) = .ok gs)
    (hcpre : (cpre.val h).data = gc.data) (hspre : (spre.val h).data = gs.data) :
    ∃ eqA ekA hA eqB ekB hB,
      apply_rotary_pos_emb h query key c0 s0 (some pids) (some cf) (some sf) =
        .ok ((eqA, ekA), hA) ∧
      apply_rotary_pos_emb h query key (some cpre) (some spre) none none none =
        .ok ((eqB, ekB), hB) ∧
      eqA.val hA = eqB.val hB ∧ ekA.val hA = ekB.val hB := by
  refine ⟨_, _, _, _, _, _,
    apply_rotary_pids_ok h query key pids cf sf c0 s0 gc gs hq hk hqs hks hcs hss hps hgc hgs,
    apply_rotary_direct_ok h query key cpre spre none none hq hk hqs hks hcp hsp, ?_, ?_⟩
  · simp only [TensorRef.val] at hcpre hspre ⊢
    simp only [List.getD, List.get?_eq_getElem?] at hcpre hspre
    simp [getD_setset_fst, List.getElem_append_right, hcpre, hspre]
  · simp only [TensorRef.val] at hcpre hspre ⊢
    simp only [List.getD, List.get?_eq_getElem?] at hcpre hspre
    simp [getD_setset_snd, List.getElem_append_right, hcpre, hspre]

/-- Witness for C2 at a concrete input: a one-token query/key with a
2-entry rotary table; the table-lookup call and the manually pre-indexed
call return identical embedded values. -/
theorem claimC2_rotary_table_lookup_witness :
    ∃ eqA ekA hA eqB ekB hB,
      apply_rotary_pos_emb [[1, 2, 3, 4], [5, 6, 7, 8], [1, 1], [10, 20], [30, 40], [0],
          [10, 20], [30, 40]] ⟨0, [1, 2, 2]⟩ ⟨1, [1, 2, 2]⟩ none none
          (some ⟨5, [1]⟩) (some ⟨3, [1, 2]⟩) (some ⟨4, [1, 2]⟩) =
        .ok ((eqA, ekA), hA) ∧
      apply_rotary_pos_emb [[1, 2, 3, 4], [5, 6, 7, 8], [1, 1], [10, 20], [30, 40], [0],
          [10, 20], [30, 40]] ⟨0, [1, 2, 2]⟩ ⟨1, [1, 2, 2]⟩ (some ⟨6, [1, 2]⟩)
          (some ⟨7, [1, 2]⟩) none none none =
        .ok ((eqB, ekB), hB) ∧
      eqA.val hA = eqB.val hB ∧ ekA.val hA = ekB.val hB :=
  claimC2_rotary_table_lookup
    [[1, 2, 3, 4], [5, 6, 7, 8], [1, 1], [10, 20], [30, 40], [0], [10, 20], [30, 40]]
    ⟨0, [1, 2, 2]⟩ ⟨1, [1, 2, 2]⟩ ⟨5, [1]⟩ ⟨3, [1, 2]⟩ ⟨4, [1, 2]⟩ ⟨6, [1, 2]⟩ ⟨7, [1, 2]⟩
    none none ⟨[1, 2], [10, 20]⟩ ⟨[1, 2], [30, 40]⟩ rfl rfl (by decide) (by decide)
    (by decide) (by decide) (by decide) (by decide) (by decide) rfl rfl rfl rfl

/-- **C8**: whenever `apply_rotary_pos_emb` returns, the embedded query and
key are freshly allocated buffers (the two storage ids immediately past the
caller's heap), each shaped exactly like its input, and the input query/key
storages are untouched. -/
theorem claimC8_rotary_fresh_outputs (h : Heap) (query key : TensorRef)
    (c0 s0 pids cfo sfo : Option TensorRef) (eq ek : TensorRef) (h' : Heap)
    (hqs : query.sid < h.length) (hks : key.sid < h.length)
    (hres : apply_rotary_pos_emb h query key c0 s0 pids cfo sfo = .ok ((eq, ek), h')) :
    eq.shape = query.shape ∧ ek.shape = key.shape ∧
    eq.sid = h.length ∧ ek.sid = h.length + 1 ∧
    h'.getD query.sid [] = h.getD query.sid [] ∧
    h'.getD key.sid [] = h.getD key.sid [] := by
  by_cases hq3 : query.ndim = 3
  · by_cases hk3 : key.ndim = 3
    · rcases pids with _ | pids
      · rcases s0 with _ | s0
        · simp [apply_rotary_pos_emb, pyAssert, allocT, bt_apply_rotary, hq3, hk3] at hres
        · rcases c0 with _ | c0
          · simp [apply_rotary_pos_emb, pyAssert, allocT, bt_apply_rotary, hq3, hk3] at hres
          · simp only [apply_rotary_pos_emb, pyAssert, allocT, bt_apply_rotary, hq3, hk3,
              if_true, eq_self_iff_true, exceptBind_ok, List.length_append, List.length_cons,
              List.length_nil, Nat.zero_add, Nat.add_zero] at hres
            simp only [Except.ok.injEq, Prod.mk.injEq] at hres
            obtain ⟨⟨he, hke⟩, hh⟩ := hres
            subst he; subst hke; subst hh
            refine ⟨rfl, rfl, rfl, rfl, ?_, ?_⟩
            · rw [getD_set_ne _ _ _ _ _ (show List.length h + 1 ≠ query.sid by omega),
                getD_set_ne _ _ _ _ _ (show List.length h ≠ query.sid by omega)]
              simp only [List.append_assoc]
              rw [getD_append_lt _ _ _ _ hqs]
            · rw [getD_set_ne _ _ _ _ _ (show List.length h + 1 ≠ key.sid by omega),
                getD_set_ne _ _ _ _ _ (show List.length h ≠ key.sid by omega)]
              simp only [List.append_assoc]
              rw [getD_append_lt _ _ _ _ hks]
      · rcases cfo with _ | cf
        · simp [apply_rotary_pos_emb, pyAssert, allocT, bt_apply_rotary, hq3, hk3] at hres
        · rcases sfo with _ | sf
          · simp [apply_rotary_pos_emb, pyAssert, allocT, bt_apply_rotary, hq3, hk3] at hres
          · cases hgc : gatherRows
                (cf.val (h ++ [List.replicate query.numel 0, List.replicate key.numel 0]))
                (pids.val (h ++ [List.replicate query.numel 0, List.replicate key.numel 0]))
              with
            | error e =>
                simp [apply_rotary_pos_emb, pyAssert, allocT, bt_apply_rotary, hq3, hk3,
                  hgc] at hres
            | ok gc =>
                cases hgs : gatherRows
                    (sf.val (h ++ [List.replicate query.numel 0, List.replicate key.numel 0,
                      gc.data]))
                    (pids.val (h ++ [List.replicate query.numel 0, List.replicate key.numel 0,
                      gc.data]))
                  with
                | error e =>
                    simp [apply_rotary_pos_emb, pyAssert, allocT, bt_apply_rotary, hq3, hk3,
                      hgc, hgs] at hres
                | ok gs =>
                    simp only [apply_rotary_pos_emb, pyAssert, allocT, bt_apply_rotary, hq3, hk3,
                      if_true, eq_self_iff_true, exceptBind_ok, List.append_assoc,
                      List.cons_append, List.singleton_append, List.nil_append, hgc, hgs,
                      List.length_append, List.length_cons, List.length_nil, Nat.zero_add,
                      Nat.add_zero] at hres
                    simp only [Except.ok.injEq, Prod.mk.injEq] at hres
                    obtain ⟨⟨he, hke⟩, hh⟩ := hres
                    subst he; subst hke; subst hh
                    refine ⟨rfl, rfl, rfl, rfl, ?_, ?_⟩
                    · rw [getD_set_ne _ _ _ _ _ (show List.length h + 1 ≠ query.sid by omega),
                        getD_set_ne _ _ _ _ _ (show List.length h ≠ query.sid by omega),
                        getD_append_lt _ _ _ _ hqs]
                    · rw [getD_set_ne _ _ _ _ _ (show List.length h + 1 ≠ key.sid by omega),
                        getD_set_ne _ _ _ _ _ (show List.length h ≠ key.sid by omega),
                        getD_append_lt _ _ _ _ hks]
    · simp [apply_rotary_pos_emb, pyAssert, hq3, hk3] at hres
  · simp [apply_rotary_pos_emb, pyAssert, hq3] at hres

/-- Witness for C8 at a concrete input: the embedded query/key come back in
the two fresh storages 8 and 9, shaped like the inputs, and the input
storages 0 and 1 are unchanged. -/
theorem claimC8_rotary_fresh_outputs_witness :
    ∃ eqr ekr h', apply_rotary_pos_emb [[1, 2, 3, 4], [5, 6, 7, 8], [1, 1], [10, 20], [30, 40],
        [0], [10, 20], [30, 40]] ⟨0, [1, 2, 2]⟩ ⟨1, [1, 2, 2]⟩ (some ⟨6, [1, 2]⟩)
        (some ⟨7, [1, 2]⟩) none none none = .ok ((eqr, ekr), h') ∧
      eqr.shape = [1, 2, 2] ∧ ekr.shape = [1, 2, 2] ∧ eqr.sid = 8 ∧ ekr.sid = 9 ∧
      h'.getD 0 [] = [1, 2, 3, 4] ∧ h'.getD 1 [] = [5, 6, 7, 8] := by
  refine ⟨_, _, _, rfl, ?_⟩
  exact claimC8_rotary_fresh_outputs
    [[1, 2, 3, 4], [5, 6, 7, 8], [1, 1], [10, 20], [30, 40], [0], [10, 20], [30, 40]]
    ⟨0, [1, 2, 2]⟩ ⟨1, [1, 2, 2]⟩ (some ⟨6, [1, 2]⟩) (some ⟨7, [1, 2]⟩) none none none
    _ _ _ (by decide) (by decide) rfl

/-! ## Paged decode attention -/

/-- With all preconditions satisfied, the wrapper builds exactly this
argument tuple for `bt_ops.single_query_cached_kv_attn`: `out` is
`attn_output` viewed with the query's 4-D shape, and the softmax scale is
`1. / math.sqrt(dim)` — `attn_qk_scale` is never consulted. -/
theorem pagedDecodeAttentionArgs_ok (h : Heap)
    (query key_cache value_cache bt kv_seq_len : TensorRef)
    (block_size : Nat) (nq nk : Nat) (s : Option ℚ) (al : Option (List ℚ)) (ao : TensorRef)
    (m : Int)
    (hq : query.ndim = 4) (hq1 : query.shape.getD 1 0 = 1)
    (hkc : key_cache.ndim = 4) (hvc : value_cache.ndim = 4) (hbt : bt.ndim = 2)
    (hmax : torchMax (kv_seq_len.val h) = .ok m)
    (hao : ao.shape.prod = query.shape.prod) :
    pagedDecodeAttentionArgs h query key_cache value_cache (some bt) block_size kv_seq_len
      nq nk s al (some ao) =
    .ok ⟨query, key_cache, value_cache, bt, kv_seq_len, al, ⟨ao.sid, query.shape⟩, m,
      ScaleVal.invSqrt (query.shape.getD 3 0)⟩ := by
  have hq1' : query.shape[1]?.getD 0 = 1 := by
    simpa [List.getD, List.get?_eq_getElem?] using hq1
  simp [pagedDecodeAttentionArgs, pyAssert, toShape, TensorRef.numel,
    hq, hq1, hq1', hkc, hvc, hbt, hmax, hao]

/-- **C1 (counterexample)**: a call with `attn_qk_scale = 3` supplied and
`head_dim = 4` still hands the kernel the computed scale
`1 / sqrt(4) = 1/2`, not the supplied `3`: the supplied scale is ignored,
refuting the claim that a supplied `attn_qk_scale` is used instead. -/
theorem claimC1_counterexample :
    ∃ a, pagedDecodeAttentionArgs [[1, 2, 3, 4], [5], [6], [0], [9], [0, 0, 0, 0]]
        ⟨0, [1, 1, 1, 4]⟩ ⟨1, [1, 1, 1, 1]⟩ ⟨2, [1, 1, 1, 1]⟩ (some ⟨3, [1, 1]⟩) 16
        ⟨4, [1]⟩ 1 1 (some 3) none (some ⟨5, [4]⟩) = .ok a ∧
      a.softmax_scale = ScaleVal.invSqrt 4 ∧
      a.softmax_scale.toReal ≠ (ScaleVal.lit 3).toReal := by
  refine ⟨_, rfl, rfl, ?_⟩
  have h4 : Real.sqrt (4 : ℝ) = 2 := by
    rw [show (4 : ℝ) = (2 : ℝ) ^ 2 by norm_num]
    exact Real.sqrt_sq (by norm_num)
  simp only [ScaleVal.toReal]
  rw [show ([1, 1, 1, 4] : List ℕ).getD 3 0 = 4 from rfl]
  push_cast
  rw [h4]
  norm_num

/-- **C1 (amended)**: the softmax scale passed to the kernel is always
computed as `1 / sqrt(head_dim)`; `attn_qk_scale` is ignored — supplying
it changes nothing about the call. -/
theorem claimC1_scale_always_computed (h : Heap) (query key_cache value_cache : TensorRef)
    (block_table : Option TensorRef) (block_size : Nat) (kv_seq_len : TensorRef)
    (nq nk : Nat) (s : ℚ) (al : Option (List ℚ)) (attn_output : Option TensorRef)
    (bt ao : TensorRef) (m : Int)
    (hq : query.ndim = 4) (hq1 : query.shape.getD 1 0 = 1)
    (hkc : key_cache.ndim = 4) (hvc : value_cache.ndim = 4) (hbt : bt.ndim = 2)
    (hmax : torchMax (kv_seq_len.val h) = .ok m)
    (hao : ao.shape.prod = query.shape.prod) :
    pagedDecodeAttentionArgs h query key_cache value_cache block_table block_size kv_seq_len
        nq nk (some s) al attn_output =
      pagedDecodeAttentionArgs h query key_cache value_cache block_table block_size kv_seq_len
        nq nk none al attn_output ∧
    ∀ a, pagedDecodeAttentionArgs h query key_cache value_cache (some bt) block_size kv_seq_len
        nq nk (some s) al (some ao) = .ok a →
      a.softmax_scale = ScaleVal.invSqrt (query.shape.getD 3 0) := by
  refine ⟨rfl, fun a ha => ?_⟩
  rw [pagedDecodeAttentionArgs_ok h query key_cache value_cache bt kv_seq_len block_size
    nq nk (some s) al ao m hq hq1 hkc hvc hbt hmax hao] at ha
  cases ha
  rfl

/-- Witness for C1 (amended) at a concrete input: supplying
`attn_qk_scale = 3` produces exactly the same kernel arguments as
supplying none, and the scale handed over is `1/sqrt(4)`. -/
theorem claimC1_scale_always_computed_witness :
    pagedDecodeAttentionArgs [[1, 2, 3, 4], [5], [6], [0], [9], [0, 0, 0, 0]] ⟨0, [1, 1, 1, 4]⟩
        ⟨1, [1, 1, 1, 1]⟩ ⟨2, [1, 1, 1, 1]⟩ (some ⟨3, [1, 1]⟩) 16 ⟨4, [1]⟩ 1 1 (some 3) none
        (some ⟨5, [4]⟩) =
      pagedDecodeAttentionArgs [[1, 2, 3, 4], [5], [6], [0], [9], [0, 0, 0, 0]] ⟨0, [1, 1, 1, 4]⟩
        ⟨1, [1, 1, 1, 1]⟩ ⟨2, [1, 1, 1, 1]⟩ (some ⟨3, [1, 1]⟩) 16 ⟨4, [1]⟩ 1 1 none none
        (some ⟨5, [4]⟩) ∧
    ∀ a, pagedDecodeAttentionArgs [[1, 2, 3, 4], [5], [6], [0], [9], [0, 0, 0, 0]]
        ⟨0, [1, 1, 1, 4]⟩ ⟨1, [1, 1, 1, 1]⟩ ⟨2, [1, 1, 1, 1]⟩ (some ⟨3, [1, 1]⟩) 16 ⟨4, [1]⟩
        1 1 (some 3) none (some ⟨5, [4]⟩) = .ok a →
      a.softmax_scale = ScaleVal.invSqrt 4 :=
  claimC1_scale_always_computed [[1, 2, 3, 4], [5], [6], [0], [9], [0, 0, 0, 0]]
    ⟨0, [1, 1, 1, 4]⟩ ⟨1, [1, 1, 1, 1]⟩ ⟨2, [1, 1, 1, 1]⟩ (some ⟨3, [1, 1]⟩) 16 ⟨4, [1]⟩ 1 1 3
    none (some ⟨5, [4]⟩) ⟨3, [1, 1]⟩ ⟨5, [4]⟩ 9 rfl (by decide) rfl rfl rfl rfl (by decide)

/-- **C4**: with all assertions satisfied, `paged_decode_attention` builds
`out` as `attn_output` viewed with the query's 4-D shape, the kernel's
result is written in place into `attn_output`'s storage (heap length
unchanged, every other storage untouched), and the function returns no
value (`None`). -/
theorem claimC4_paged_decode_in_place (h : Heap)
    (query key_cache value_cache bt kv_seq_len ao : TensorRef)
    (block_size nq nk : Nat) (s : Option ℚ) (al : Option (List ℚ)) (m : Int)
    (hq : query.ndim = 4) (hq1 : query.shape.getD 1 0 = 1)
    (hkc : key_cache.ndim = 4) (hvc : value_cache.ndim = 4) (hbt : bt.ndim = 2)
    (hmax : torchMax (kv_seq_len.val h) = .ok m)
    (hao : ao.shape.prod = query.shape.prod)
    (hqwf : (h.getD query.sid []).length = query.numel) :
    ∃ a outData,
      pagedDecodeAttentionArgs h query key_cache value_cache (some bt) block_size kv_seq_len
          nq nk s al (some ao) = .ok a ∧
      a.out = ⟨ao.sid, query.shape⟩ ∧
      paged_decode_attention h query key_cache value_cache (some bt) block_size kv_seq_len
          nq nk s al (some ao) = .ok (none, h.set ao.sid outData) ∧
      outData.length = query.numel ∧
      (h.set ao.sid outData).length = h.length ∧
      (∀ sid, sid ≠ ao.sid → (h.set ao.sid outData).getD sid [] = h.getD sid []) := by
  refine ⟨_, h.getD query.sid [],
    pagedDecodeAttentionArgs_ok h query key_cache value_cache bt kv_seq_len block_size
      nq nk s al ao m hq hq1 hkc hvc hbt hmax hao, rfl, ?_, hqwf, by simp, ?_⟩
  · simp only [paged_decode_attention,
      pagedDecodeAttentionArgs_ok h query key_cache value_cache bt kv_seq_len block_size
        nq nk s al ao m hq hq1 hkc hvc hbt hmax hao,
      exceptBind_ok, sqckaOutData, TensorRef.val]
  · intro sid hsid
    exact getD_set_ne _ _ _ _ _ (fun hEq => hsid hEq.symm)

/-- Witness for C4 at a concrete input: the call returns `none` and only
storage 5 (`attn_output`) changes. -/
theorem claimC4_paged_decode_in_place_witness :
    ∃ a outData,
      pagedDecodeAttentionArgs [[1, 2, 3, 4], [5], [6], [0], [9], [0, 0, 0, 0]]
          ⟨0, [1, 1, 1, 4]⟩ ⟨1, [1, 1, 1, 1]⟩ ⟨2, [1, 1, 1, 1]⟩ (some ⟨3, [1, 1]⟩) 16
          ⟨4, [1]⟩ 1 1 none none (some ⟨5, [4]⟩) = .ok a ∧
      a.out = ⟨5, [1, 1, 1, 4]⟩ ∧
      paged_decode_attention [[1, 2, 3, 4], [5], [6], [0], [9], [0, 0, 0, 0]]
          ⟨0, [1, 1, 1, 4]⟩ ⟨1, [1, 1, 1, 1]⟩ ⟨2, [1, 1, 1, 1]⟩ (some ⟨3, [1, 1]⟩) 16
          ⟨4, [1]⟩ 1 1 none none (some ⟨5, [4]⟩) =
        .ok (none, ([[1, 2, 3, 4], [5], [6], [0], [9], [0, 0, 0, 0]] : Heap).set 5 outData) ∧
      outData.length = 4 ∧
      (([[1, 2, 3, 4], [5], [6], [0], [9], [0, 0, 0, 0]] : Heap).set 5 outData).length = 6 ∧
      (∀ sid, sid ≠ 5 →
        (([[1, 2, 3, 4], [5], [6], [0], [9], [0, 0, 0, 0]] : Heap).set 5 outData).getD sid [] =
          ([[1, 2, 3, 4], [5], [6], [0], [9], [0, 0, 0, 0]] : Heap).getD sid []) :=
  claimC4_paged_decode_in_place [[1, 2, 3, 4], [5], [6], [0], [9], [0, 0, 0, 0]]
    ⟨0, [1, 1, 1, 4]⟩ ⟨1, [1, 1, 1, 1]⟩ ⟨2, [1, 1, 1, 1]⟩ ⟨3, [1, 1]⟩ ⟨4, [1]⟩ ⟨5, [4]⟩
    16 1 1 none none 9 rfl (by decide) rfl rfl rfl rfl (by decide) (by decide)

/-- **C6**: `paged_decode_attention` rejects, with an assertion failure and
before any kernel work, every query whose second dimension is not 1; it
likewise asserts query rank 4, cache ranks 4, and block-table rank 2 (each
in source order, given the preceding assertions hold). -/
theorem claimC6_paged_decode_assertions (h : Heap)
    (query key_cache value_cache : TensorRef) (block_table : Option TensorRef)
    (block_size : Nat) (kv_seq_len : TensorRef) (nq nk : Nat) (s : Option ℚ)
    (al : Option (List ℚ)) (attn_output : Option TensorRef) :
    (query.shape.getD 1 0 ≠ 1 →
      ∃ msg, paged_decode_attention h query key_cache value_cache block_table block_size
        kv_seq_len nq nk s al attn_output = .error (.assertionError msg)) ∧
    (query.ndim ≠ 4 →
      paged_decode_attention h query key_cache value_cache block_table block_size
        kv_seq_len nq nk s al attn_output =
        .error (.assertionError "only support q:[batch,seq_q=1, head ,head_dim]")) ∧
    (query.ndim = 4 → query.shape.getD 1 0 ≠ 1 →
      paged_decode_attention h query key_cache value_cache block_table block_size
        kv_seq_len nq nk s al attn_output =
        .error (.assertionError "only support seq_q = 1 in paged decode attention")) ∧
    (query.ndim = 4 → query.shape.getD 1 0 = 1 → key_cache.ndim ≠ 4 →
      paged_decode_attention h query key_cache value_cache block_table block_size
        kv_seq_len nq nk s al attn_output =
        .error (.assertionError
          "only support k_cache:[num_blocks, kv_head_num, block_size, head_size]")) ∧
    (query.ndim = 4 → query.shape.getD 1 0 = 1 → key_cache.ndim = 4 → value_cache.ndim ≠ 4 →
      paged_decode_attention h query key_cache value_cache block_table block_size
        kv_seq_len nq nk s al attn_output =
        .error (.assertionError
          "only support v_cache:[num_blocks, kv_head_num, block_size, head_size]")) ∧
    (∀ bt, query.ndim = 4 → query.shape.getD 1 0 = 1 → key_cache.ndim = 4 →
      value_cache.ndim = 4 → bt.ndim ≠ 2 →
      paged_decode_attention h query key_cache value_cache (some bt) block_size
        kv_seq_len nq nk s al attn_output =
        .error (.assertionError
          "only support bloack_table:[batch_size, max_num_blocks_per_seq]")) := by
  have unf : ∀ (btab : Option TensorRef),
      paged_decode_attention h query key_cache value_cache btab block_size
        kv_seq_len nq nk s al attn_output =
      (pagedDecodeAttentionArgs h query key_cache value_cache btab block_size
        kv_seq_len nq nk s al attn_output).bind
        (fun a => .ok (none, h.set a.out.sid (sqckaOutData a h))) := by
    intro btab
    rfl
  refine ⟨?_, ?_, ?_, ?_, ?_, ?_⟩
  · intro hq1
    by_cases hq : query.ndim = 4
    · have hq1' : ¬ query.shape[1]?.getD 0 = 1 := fun hEq =>
        hq1 (by simpa [List.getD, List.get?_eq_getElem?] using hEq)
      exact ⟨"only support seq_q = 1 in paged decode attention",
        by simp [unf, pagedDecodeAttentionArgs, pyAssert, hq, hq1']⟩
    · exact ⟨"only support q:[batch,seq_q=1, head ,head_dim]",
        by simp [unf, pagedDecodeAttentionArgs, pyAssert, hq]⟩
  · intro hq
    simp [unf, pagedDecodeAttentionArgs, pyAssert, hq]
  · intro hq hq1
    have hq1' : ¬ query.shape[1]?.getD 0 = 1 := fun hEq =>
      hq1 (by simpa [List.getD, List.get?_eq_getElem?] using hEq)
    simp [unf, pagedDecodeAttentionArgs, pyAssert, hq, hq1']
  · intro hq hq1 hkc
    have hq1' : query.shape[1]?.getD 0 = 1 := by
      simpa [List.getD, List.get?_eq_getElem?] using hq1
    simp [unf, pagedDecodeAttentionArgs, pyAssert, hq, hq1', hkc]
  · intro hq hq1 hkc hvc
    have hq1' : query.shape[1]?.getD 0 = 1 := by
      simpa [List.getD, List.get?_eq_getElem?] using hq1
    simp [unf, pagedDecodeAttentionArgs, pyAssert, hq, hq1', hkc, hvc]
  · intro bt hq hq1 hkc hvc hbt
    have hq1' : query.shape[1]?.getD 0 = 1 := by
      simpa [List.getD, List.get?_eq_getElem?] using hq1
    simp [unf, pagedDecodeAttentionArgs, pyAssert, hq, hq1', hkc, hvc, hbt]

/-- Witness for C6 at concrete inputs: a rank-4 query with `seq_q = 2` is
rejected by an assertion before any kernel work. -/
theorem claimC6_paged_decode_assertions_witness :
    ∃ msg, paged_decode_attention [[1, 2, 3, 4, 5, 6, 7, 8], [5], [6], [0], [9], [0, 0, 0, 0]]
        ⟨0, [1, 2, 1, 4]⟩ ⟨1, [1, 1, 1, 1]⟩ ⟨2, [1, 1, 1, 1]⟩ (some ⟨3, [1, 1]⟩) 16
        ⟨4, [1]⟩ 1 1 none none (some ⟨5, [4]⟩) = .error (.assertionError msg) :=
  (claimC6_paged_decode_assertions [[1, 2, 3, 4, 5, 6, 7, 8], [5], [6], [0], [9], [0, 0, 0, 0]]
    ⟨0, [1, 2, 1, 4]⟩ ⟨1, [1, 1, 1, 1]⟩ ⟨2, [1, 1, 1, 1]⟩ (some ⟨3, [1, 1]⟩) 16
    ⟨4, [1]⟩ 1 1 none none (some ⟨5, [4]⟩)).1 (by decide)

/-- **C9 (counterexample)**: a call with `block_table = None` (and
`attn_output = None`-irrelevant) whose query is rank 3 fails with the
*documented precondition assertion* on the query's rank, not with an
attribute error on `None` — so not every call passing `None` fails with an
`AttributeError`. -/
theorem claimC9_counterexample :
    paged_decode_attention [[1, 2, 3, 4], [5], [6], [9], [0, 0, 0, 0]] ⟨0, [1, 1, 4]⟩
        ⟨1, [1, 1, 1, 1]⟩ ⟨2, [1, 1, 1, 1]⟩ none 16 ⟨3, [1]⟩ 1 1 none none (some ⟨4, [4]⟩) =
      .error (.assertionError "only support q:[batch,seq_q=1, head ,head_dim]") := rfl

/-- **C9 (amended)**: `block_table` and `attn_output` are dereferenced with
no `None` check, so both are effectively required: once the four preceding
shape assertions pass, `block_table = None` fails with an `AttributeError`
on `None` (evaluating `block_table.ndim`); and once additionally the block
table passes its assertion and `torch.max(kv_seq_len)` evaluates,
`attn_output = None` fails with an `AttributeError` on `None` (at
`attn_output.view_as`). -/
theorem claimC9_optional_params_required (h : Heap)
    (query key_cache value_cache : TensorRef) (block_size : Nat) (kv_seq_len : TensorRef)
    (nq nk : Nat) (s : Option ℚ) (al : Option (List ℚ)) (attn_output : Option TensorRef)
    (bt : TensorRef) (m : Int)
    (hq : query.ndim = 4) (hq1 : query.shape.getD 1 0 = 1)
    (hkc : key_cache.ndim = 4) (hvc : value_cache.ndim = 4) :
    paged_decode_attention h query key_cache value_cache none block_size kv_seq_len nq nk
        s al attn_output = .error (noneAttr "ndim") ∧
    (bt.ndim = 2 → torchMax (kv_seq_len.val h) = .ok m →
      paged_decode_attention h query key_cache value_cache (some bt) block_size kv_seq_len
        nq nk s al none = .error (noneAttr "view_as")) := by
  have hq1' : query.shape[1]?.getD 0 = 1 := by
    simpa [List.getD, List.get?_eq_getElem?] using hq1
  constructor
  · simp [paged_decode_attention, pagedDecodeAttentionArgs, pyAssert, hq, hq1', hkc, hvc]
  · intro hbt hmax
    simp [paged_decode_attention, pagedDecodeAttentionArgs, pyAssert, hq, hq1', hkc, hvc,
      hbt, hmax]

/-- Witness for C9 (amended) at a concrete input: with all shape
assertions passing, `block_table = None` and `attn_output = None` each
fail with an `AttributeError` on `None`. -/
theorem claimC9_optional_params_required_witness :
    paged_decode_attention [[1, 2, 3, 4], [5], [6], [0], [9], [0, 0, 0, 0]] ⟨0, [1, 1, 1, 4]⟩
        ⟨1, [1, 1, 1, 1]⟩ ⟨2, [1, 1, 1, 1]⟩ none 16 ⟨4, [1]⟩ 1 1 none none
        (some ⟨5, [4]⟩) = .error (noneAttr "ndim") ∧
    ((⟨3, [1, 1]⟩ : TensorRef).ndim = 2 →
      torchMax ((⟨4, [1]⟩ : TensorRef).val [[1, 2, 3, 4], [5], [6], [0], [9], [0, 0, 0, 0]]) =
        .ok 9 →
      paged_decode_attention [[1, 2, 3, 4], [5], [6], [0], [9], [0, 0, 0, 0]] ⟨0, [1, 1, 1, 4]⟩
        ⟨1, [1, 1, 1, 1]⟩ ⟨2, [1, 1, 1, 1]⟩ (some ⟨3, [1, 1]⟩) 16 ⟨4, [1]⟩ 1 1 none none
        none = .error (noneAttr "view_as")) :=
  claimC9_optional_params_required [[1, 2, 3, 4], [5], [6], [0], [9], [0, 0, 0, 0]]
    ⟨0, [1, 1, 1, 4]⟩ ⟨1, [1, 1, 1, 1]⟩ ⟨2, [1, 1, 1, 1]⟩ 16 ⟨4, [1]⟩ 1 1 none none
    (some ⟨5, [4]⟩) ⟨3, [1, 1]⟩ 9 rfl (by decide) rfl rfl
